import Mathlib

/-!
Verification of the Unicorn Contracts service core: the contract status
propagation pipeline. The definitions below are a shallow embedding of the
repository sources: the ContractEventHandlerFunction (SQS command processor
writing to the DynamoDB contracts table with a conditional update), the
EventBridge pipe declared on the table stream (filter criteria and target
parameters), the stream source retry configuration, and the
ContractExistsCheckerFunction used by the orchestration workflow.
-/

namespace UnicornContracts

/-- Modelled from the spec: the contract status enumeration from the module
Contract imported by the handler (the module itself is not among the sources).
Its values serialize to the strings DRAFT and APPROVED used in the conditional
write and in the pipe filter. -/
inductive ContractStatusEnum
  | DRAFT
  | APPROVED
deriving DecidableEq, Repr

/-- The string value of a status, as written into the DynamoDB S attribute. -/
def ContractStatusEnum.val : ContractStatusEnum → String
  | .DRAFT => "DRAFT"
  | .APPROVED => "APPROVED"

/-- Modelled from the spec: the record type ContractDBType from the module
Contract imported by the handler, with the fields of the data model that the
handler reads and builds. -/
structure ContractDBType where
  contract_id : String
  property_id : String
  contract_status : Option String
  contract_last_modified_on : Option String
deriving DecidableEq, Repr

/-- A stored item of the contracts DynamoDB table. The partition key
property_id always exists on a stored item; every other attribute may be
absent, so each is an Option. The update path writes the attributes
contract_status and modified_date; contract_last_modified_on is a distinct
attribute that the pipe input template projects. -/
structure Item where
  property_id : String
  contract_id : Option String
  contract_status : Option String
  contract_last_modified_on : Option String
  modified_date : Option String
deriving DecidableEq, Repr

/-- The contracts table: at most one item per partition key property_id. -/
def Store : Type := String → Option Item

/-- A table with no items. -/
def emptyStore : Store := fun _ => none

/-- Writing an item under a partition key. -/
def putItem (s : Store) (pid : String) (it : Item) : Store :=
  fun q => if q = pid then some it else s q

/-- The typed failures surfaced by the command processor paths: a JSON parse
failure of an SQS record body, a DynamoDB ConditionalCheckFailedException from
a conditional write, and the Not implemented error thrown by createContract. -/
inductive HandlerError
  | parseError
  | conditionalCheckFailed
  | notImplemented
deriving DecidableEq, Repr

/-- ContractEventHandlerFunction.updateContract: builds a dbEntry with status
APPROVED and a fresh timestamp, then issues UpdateItem with key property_id,
UpdateExpression "set contract_status = :t, modified_date = :m" and
ConditionExpression "attribute_exists(property_id) AND contract_status = :DRAFT".
Since property_id is the partition key, attribute_exists(property_id) holds
exactly when an item is stored under the key. A failed condition raises
ConditionalCheckFailedException and DynamoDB leaves the table unchanged; on
success the SDK returns status 200, so the non-200 branch of the source is not
reached in the fault-free model. -/
def updateContract (contract : ContractDBType) (now : String) (s : Store) :
    Except HandlerError Store :=
  match s contract.property_id with
  | some it =>
      if it.contract_status = some ContractStatusEnum.DRAFT.val then
        Except.ok (putItem s contract.property_id
          { it with contract_status := some ContractStatusEnum.APPROVED.val
                    modified_date := some now })
      else Except.error HandlerError.conditionalCheckFailed
  | none => Except.error HandlerError.conditionalCheckFailed

/-- The table state after an updateContract attempt: the new state on success,
and the unchanged table when the conditional write is rejected (DynamoDB
performs no write on ConditionalCheckFailedException). -/
def updateContractTable (contract : ContractDBType) (now : String) (s : Store) :
    Store :=
  match updateContract contract now s with
  | Except.ok s' => s'
  | Except.error _ => s

/-- createContract: the source body is exactly throw Error with the message
Not implemented. -/
def createContract (_contract : ContractDBType) : Except HandlerError Unit :=
  Except.error HandlerError.notImplemented

/-- The body of an SQS record as seen through JSON.parse: either unparseable or
a contract payload. -/
inductive SQSBody
  | malformed
  | wellFormed (contract : ContractDBType)
deriving DecidableEq, Repr

/-- An SQS record as consumed by the handler: the message body and the
HttpMethod message attribute string value. -/
structure SQSRecord where
  body : SQSBody
  httpMethod : String
deriving DecidableEq, Repr

/-- ContractEventHandlerFunction.parseRecord: JSON.parse of the record body,
rethrown as a parsing error when it fails. -/
def parseRecord (r : SQSRecord) : Except HandlerError ContractDBType :=
  match r.body with
  | SQSBody.malformed => Except.error HandlerError.parseError
  | SQSBody.wellFormed c => Except.ok c

/-- ContractEventHandlerFunction.handler: iterates over the records of the SQS
event. Each record is parsed before the method switch; a parse failure throws
and aborts the loop. On POST the save action is an unimplemented TODO, so no
write happens. On PUT the handler awaits updateContract and rethrows its
error. Any other method only logs an error and the loop continues. The result
pairs the error propagated to the caller, if any, with the table state reached
when the handler returns or throws. -/
def handler (now : String) : List SQSRecord → Store → Option HandlerError × Store
  | [], s => (none, s)
  | r :: rest, s =>
    match parseRecord r with
    | Except.error e => (some e, s)
    | Except.ok c =>
      if r.httpMethod = "POST" then
        handler now rest s
      else if r.httpMethod = "PUT" then
        match updateContract c now s with
        | Except.ok s' => handler now rest s'
        | Except.error e => (some e, s)
      else
        handler now rest s

/-- A DynamoDB stream record of the contracts table, as delivered to the pipe:
the event name with the old and new images (NEW_AND_OLD_IMAGES view). -/
structure ChangeRecord where
  eventName : String
  oldImage : Option Item
  newImage : Option Item
deriving DecidableEq, Repr

/-- The canonical domain event put on the contracts event bus by the pipe. -/
structure CanonicalEvent where
  source : String
  detailType : String
  property_id : String
  contract_id : Option String
  contract_status : Option String
  contract_last_modified_on : Option String
deriving DecidableEq, Repr

/-- The filterCriteria pattern of the ContractsTableStreamToEventPipe: the
event name must be INSERT or MODIFY and the new image contract_status S value
must be DRAFT or APPROVED. -/
def filterMatch (r : ChangeRecord) : Bool :=
  (r.eventName == "INSERT" || r.eventName == "MODIFY") &&
    match r.newImage with
    | some img =>
        img.contract_status == some "DRAFT" || img.contract_status == some "APPROVED"
    | none => false

/-- The targetParameters of the pipe: source unicorn.contracts, detail type
ContractStatusChanged, and the input template projecting the new image
attributes property_id, contract_id, contract_status and
contract_last_modified_on. -/
def mkCanonicalEvent (img : Item) : CanonicalEvent :=
  { source := "unicorn.contracts"
    detailType := "ContractStatusChanged"
    property_id := img.property_id
    contract_id := img.contract_id
    contract_status := img.contract_status
    contract_last_modified_on := img.contract_last_modified_on }

/-- The canonical events produced for one stream record: the single mapped
event when the filter admits the record, none otherwise. -/
def pipeOutput (r : ChangeRecord) : List CanonicalEvent :=
  if filterMatch r then
    match r.newImage with
    | some img => [mkCanonicalEvent img]
    | none => []
  else []

/-- The dynamoDbStreamParameters of the pipe source, as declared in the stack.
The dead letter configuration is present and points at the pipe DLQ queue;
presence is what the claims depend on, so it is modelled as a flag. -/
structure DynamoDbStreamParameters where
  maximumRetryAttempts : Nat
  hasDeadLetterConfig : Bool
  startingPosition : String
  onPartialBatchItemFailure : String
  batchSize : Nat
deriving DecidableEq, Repr

/-- The literal source configuration of ContractsTableStreamToEventPipe. -/
def contractsPipeStreamParameters : DynamoDbStreamParameters :=
  { maximumRetryAttempts := 3
    hasDeadLetterConfig := true
    startingPosition := "LATEST"
    onPartialBatchItemFailure := "AUTOMATIC_BISECT"
    batchSize := 1 }

/-- Outcome of delivering one stream entry through the pipe. -/
inductive EntryOutcome
  | delivered
  | deadLettered
deriving DecidableEq, Repr

/-- Modelled from the spec: the retry policy of the pipe runtime, which is
platform behaviour configured by maximumRetryAttempts and the dead letter
configuration and is not itself among the sources. An entry is characterized
by the number of its initial failing delivery attempts; it is delivered on the
following attempt when that number is within the retry budget, and otherwise
routed to the dead letter path after maximumRetryAttempts + 1 attempts. The
pair returned is the outcome and the number of attempts made. -/
def deliverEntry (maxRetry : Nat) (failures : Nat) : EntryOutcome × Nat :=
  if failures ≤ maxRetry then (EntryOutcome.delivered, failures + 1)
  else (EntryOutcome.deadLettered, maxRetry + 1)

/-- Modelled from the spec: batch processing continues past a dead lettered
entry; each entry of the stream is settled independently in order. -/
def deliverStream (maxRetry : Nat) (entries : List Nat) : List (EntryOutcome × Nat) :=
  entries.map (deliverEntry maxRetry)

/-- The SqsEventSource wiring of the ingest queue to the handler, as declared
in the stack. -/
structure SqsEventSourceProps where
  enabled : Bool
  batchSize : Nat
  maxConcurrency : Nat
deriving DecidableEq, Repr

/-- The literal event source configuration of the ingest queue. -/
def ingestEventSource : SqsEventSourceProps :=
  { enabled := true, batchSize := 1, maxConcurrency := 5 }

/-- The projection returned by ContractExistsCheckerFunction.getContractStatus
after unmarshalling (ProjectionExpression contract_id, property_id,
contract_status). -/
structure ContractStatus where
  contract_id : Option String
  property_id : String
  contract_status : Option String
deriving DecidableEq, Repr

/-- The StepFunctionsResponse of the exists checker. The serialized JSON body
is modelled as the value it serializes: the current contract status on the
success path, and none for the serialized error payload of the fault path. -/
structure StepFunctionsResponse where
  statusCode : Nat
  body : Option ContractStatus
deriving DecidableEq, Repr

/-- ContractStatusNotFoundException: the typed not-found signal thrown by the
exists checker; its constructor sets statusCode 400. -/
structure ContractStatusNotFoundException where
  statusCode : Nat
deriving DecidableEq, Repr

/-- ContractExistsCheckerFunction.getContractStatus: GetItem on the contracts
table with the projection, undefined when no item is stored under the key. -/
def getContractStatus (s : Store) (propertyId : String) : Option ContractStatus :=
  match s propertyId with
  | none => none
  | some it =>
      some { contract_id := it.contract_id
             property_id := it.property_id
             contract_status := it.contract_status }

/-- ContractExistsCheckerFunction.handler for the property of the input. The
storeFault flag models an error thrown inside the try block (a store fault):
the catch returns statusCode 500 with the serialized error as body. Otherwise,
when no status is found or its contract_id is undefined or empty, the handler
throws ContractStatusNotFoundException (statusCode 400) after the try block;
else it returns statusCode 200 with the serialized current status. -/
def existsCheckHandler (s : Store) (propertyId : String) (storeFault : Bool) :
    Except ContractStatusNotFoundException StepFunctionsResponse :=
  if storeFault then Except.ok { statusCode := 500, body := none }
  else
    match getContractStatus s propertyId with
    | none => Except.error { statusCode := 400 }
    | some cs =>
        if cs.contract_id = none ∨ cs.contract_id = some "" then
          Except.error { statusCode := 400 }
        else Except.ok { statusCode := 200, body := some cs }

/-- A concrete stored item in status DRAFT, used to instantiate theorems. -/
def draftItemP1 : Item :=
  { property_id := "p1"
    contract_id := some "c1"
    contract_status := some "DRAFT"
    contract_last_modified_on := some "2024-01-01T00:00:00Z"
    modified_date := none }

/-- A concrete table holding only the DRAFT item for p1. -/
def storeP1Draft : Store := putItem emptyStore "p1" draftItemP1

/-- A concrete parsed Update command payload for p1. -/
def updateCommandP1 : ContractDBType :=
  { contract_id := "c1"
    property_id := "p1"
    contract_status := none
    contract_last_modified_on := none }

theorem putItem_self (s : Store) (pid : String) (it : Item) :
    putItem s pid it pid = some it := by
  simp [putItem]

theorem putItem_ne (s : Store) (pid q : String) (it : Item) (h : q ≠ pid) :
    putItem s pid it q = s q := by
  simp [putItem, h]

theorem updateContractTable_of_error (c : ContractDBType) (now : String)
    (s : Store) (e : HandlerError)
    (h : updateContract c now s = Except.error e) :
    updateContractTable c now s = s := by
  simp [updateContractTable, h]

theorem updateContractTable_of_ok (c : ContractDBType) (now : String)
    (s s' : Store) (h : updateContract c now s = Except.ok s') :
    updateContractTable c now s = s' := by
  simp [updateContractTable, h]

/-- Claim C1: a write that would set a stored contract status to APPROVED (the
conditional update issued by updateContract) is accepted exactly when an item
is stored under the property_id and its stored status is currently DRAFT;
under any other current state, including record absent, the write is rejected
with the condition failure and no record is created or changed. -/
theorem C1_approve_guard (c : ContractDBType) (now : String) (s : Store) :
    ((∃ s', updateContract c now s = Except.ok s') ↔
      ∃ it, s c.property_id = some it ∧ it.contract_status = some "DRAFT") ∧
    ((¬ ∃ it, s c.property_id = some it ∧ it.contract_status = some "DRAFT") →
      updateContract c now s = Except.error HandlerError.conditionalCheckFailed ∧
      updateContractTable c now s = s) := by
  rcases hme : s c.property_id with _ | it
  · have herr : updateContract c now s =
        Except.error HandlerError.conditionalCheckFailed := by
      simp [updateContract, hme]
    refine ⟨⟨?_, ?_⟩, ?_⟩
    · rintro ⟨s', hs⟩
      rw [herr] at hs
      cases hs
    · rintro ⟨it, hit, -⟩
      simp at hit
    · intro _
      exact ⟨herr, updateContractTable_of_error c now s _ herr⟩
  · by_cases hd : it.contract_status = some "DRAFT"
    · have hok : updateContract c now s =
          Except.ok (putItem s c.property_id
            { it with contract_status := some "APPROVED", modified_date := some now }) := by
        simp [updateContract, hme, ContractStatusEnum.val, hd]
      refine ⟨⟨fun _ => ⟨it, rfl, hd⟩, fun _ => ⟨_, hok⟩⟩, fun hn => absurd ⟨it, rfl, hd⟩ hn⟩
    · have herr : updateContract c now s =
          Except.error HandlerError.conditionalCheckFailed := by
        simp [updateContract, hme, ContractStatusEnum.val, hd]
      refine ⟨⟨?_, ?_⟩, ?_⟩
      · rintro ⟨s', hs⟩
        rw [herr] at hs
        cases hs
      · rintro ⟨it2, hit2, hd2⟩
        cases hit2
        exact absurd hd2 hd
      · intro _
        exact ⟨herr, updateContractTable_of_error c now s _ herr⟩

/-- Witness for C1: on the empty table, the approving write for p1 is rejected
with the condition failure. -/
theorem C1_approve_guard_witness :
    updateContract updateCommandP1 "2025-06-01T00:00:00Z" emptyStore =
      Except.error HandlerError.conditionalCheckFailed := by
  have h := C1_approve_guard updateCommandP1 "2025-06-01T00:00:00Z" emptyStore
  exact (h.2 (by simp [emptyStore, updateCommandP1])).1

/-- Counterexample for C2: an accepted Update on a DRAFT record does not advance
the stored contract_last_modified_on attribute. On the concrete table holding
the DRAFT item for p1 last modified in 2024, the accepted update with the
fresh timestamp of 2025 leaves contract_last_modified_on at the 2024 value and
writes the fresh timestamp under modified_date instead. -/
theorem C2_counterexample :
    updateContractTable updateCommandP1 "2025-06-01T00:00:00Z" storeP1Draft "p1" =
      some { property_id := "p1"
             contract_id := some "c1"
             contract_status := some "APPROVED"
             contract_last_modified_on := some "2024-01-01T00:00:00Z"
             modified_date := some "2025-06-01T00:00:00Z" } ∧
    ("2024-01-01T00:00:00Z" : String) ≠ "2025-06-01T00:00:00Z" := by
  constructor
  · rfl
  · decide

/-- Amended C2: on a property whose stored status is DRAFT, an Update writes a
record with status APPROVED and the fresh modification timestamp under the
attribute modified_date via the single conditional update guarded by record
exists and current status DRAFT (the stored contract_last_modified_on
attribute is not the one written); a second identical Update fails with the
condition failure and leaves the stored record unchanged, as does any Update
whose guard fails. -/
theorem C2_update_applies (c : ContractDBType) (now now2 : String) (s : Store)
    (it : Item) (hit : s c.property_id = some it)
    (hdraft : it.contract_status = some "DRAFT") :
    updateContract c now s =
      Except.ok (putItem s c.property_id
        { it with contract_status := some "APPROVED", modified_date := some now }) ∧
    updateContract c now2 (updateContractTable c now s) =
      Except.error HandlerError.conditionalCheckFailed ∧
    updateContractTable c now2 (updateContractTable c now s) =
      updateContractTable c now s := by
  have h1 : updateContract c now s =
      Except.ok (putItem s c.property_id
        { it with contract_status := some "APPROVED", modified_date := some now }) := by
    simp [updateContract, hit, ContractStatusEnum.val, hdraft]
  have htab : updateContractTable c now s =
      putItem s c.property_id
        { it with contract_status := some "APPROVED", modified_date := some now } := by
    exact updateContractTable_of_ok c now s _ h1
  have h2 : updateContract c now2 (updateContractTable c now s) =
      Except.error HandlerError.conditionalCheckFailed := by
    rw [htab]
    simp [updateContract, putItem_self, ContractStatusEnum.val]
  exact ⟨h1, h2, updateContractTable_of_error c now2 _ _ h2⟩

/-- Witness for the amended C2: the concrete DRAFT record for p1 is approved with the
fresh timestamp under modified_date, and the repeated identical update is
rejected. -/
theorem C2_update_applies_witness :
    updateContract updateCommandP1 "2025-06-01T00:00:00Z" storeP1Draft =
      Except.ok (putItem storeP1Draft "p1"
        { draftItemP1 with contract_status := some "APPROVED"
                           modified_date := some "2025-06-01T00:00:00Z" }) ∧
    updateContract updateCommandP1 "2025-06-02T00:00:00Z"
        (updateContractTable updateCommandP1 "2025-06-01T00:00:00Z" storeP1Draft) =
      Except.error HandlerError.conditionalCheckFailed := by
  have h := C2_update_applies updateCommandP1 "2025-06-01T00:00:00Z"
    "2025-06-02T00:00:00Z" storeP1Draft draftItemP1 (by rfl) (by rfl)
  exact ⟨h.1, h.2.1⟩

/-- Claim C3: the POST branch of the handler performs no write (the save action is
an unimplemented TODO with no call into DynamoDB) and createContract
unconditionally throws Not implemented: a first Create on the empty table
creates no record and no DuplicateContract logic exists. -/
theorem C3_create_not_implemented :
    handler "2025-06-01T00:00:00Z"
        [{ body := SQSBody.wellFormed updateCommandP1, httpMethod := "POST" }]
        emptyStore =
      (none, emptyStore) ∧
    createContract updateCommandP1 = Except.error HandlerError.notImplemented ∧
    emptyStore "p1" = none := by
  exact ⟨rfl, rfl, rfl⟩

/-- Claim C10: an accepted Update changes only the stored attributes contract_status
and modified_date of the item under the key; every other key of the table is
untouched, and on the written item the attributes property_id, contract_id and
contract_last_modified_on keep their stored values while modified_date gets
the fresh timestamp and contract_status becomes APPROVED. -/
theorem C10_update_frame (c : ContractDBType) (now : String) (s : Store)
    (it : Item) (hit : s c.property_id = some it)
    (hdraft : it.contract_status = some "DRAFT") :
    (∀ q, q ≠ c.property_id → updateContractTable c now s q = s q) ∧
    updateContractTable c now s c.property_id =
      some { it with contract_status := some "APPROVED", modified_date := some now } ∧
    (∀ it', updateContractTable c now s c.property_id = some it' →
      it'.property_id = it.property_id ∧
      it'.contract_id = it.contract_id ∧
      it'.contract_last_modified_on = it.contract_last_modified_on ∧
      it'.contract_status = some "APPROVED" ∧
      it'.modified_date = some now) := by
  have htab : updateContractTable c now s =
      putItem s c.property_id
        { it with contract_status := some "APPROVED", modified_date := some now } := by
    simp [updateContractTable, updateContract, hit, ContractStatusEnum.val, hdraft]
  refine ⟨?_, ?_, ?_⟩
  · intro q hq
    rw [htab, putItem_ne _ _ _ _ hq]
  · rw [htab, putItem_self]
  · intro it' hit'
    rw [htab, putItem_self] at hit'
    cases hit'
    exact ⟨rfl, rfl, rfl, rfl, rfl⟩

/-- Witness for C10: the frame of the concrete accepted update for p1: the absent
key p2 stays absent and the written item keeps property_id, contract_id and
contract_last_modified_on. -/
theorem C10_update_frame_witness :
    updateContractTable updateCommandP1 "2025-06-01T00:00:00Z" storeP1Draft "p2" =
      storeP1Draft "p2" ∧
    updateContractTable updateCommandP1 "2025-06-01T00:00:00Z" storeP1Draft "p1" =
      some { draftItemP1 with contract_status := some "APPROVED"
                              modified_date := some "2025-06-01T00:00:00Z" } := by
  have h := C10_update_frame updateCommandP1 "2025-06-01T00:00:00Z" storeP1Draft
    draftItemP1 (by rfl) (by rfl)
  exact ⟨h.1 "p2" (by decide), h.2.1⟩

/-- Claim C4: every admitted stream record produces exactly one canonical event,
whose payload is the projection of the after-image attributes property_id,
contract_id, contract_status and contract_last_modified_on, tagged with detail
type ContractStatusChanged and source unicorn.contracts, each field matching
the written record. -/
theorem C4_pipe_mapping (r : ChangeRecord) (img : Item)
    (himg : r.newImage = some img) (hadm : filterMatch r = true) :
    pipeOutput r =
      [{ source := "unicorn.contracts"
         detailType := "ContractStatusChanged"
         property_id := img.property_id
         contract_id := img.contract_id
         contract_status := img.contract_status
         contract_last_modified_on := img.contract_last_modified_on }] := by
  simp [pipeOutput, hadm, himg, mkCanonicalEvent]

/-- Witness for C4: the MODIFY record for the approved p1 item maps to the single
canonical event carrying its four attributes. -/
theorem C4_pipe_mapping_witness :
    pipeOutput
        { eventName := "MODIFY"
          oldImage := some draftItemP1
          newImage := some { property_id := "p1"
                             contract_id := some "c1"
                             contract_status := some "APPROVED"
                             contract_last_modified_on := some "2024-01-01T00:00:00Z"
                             modified_date := some "2025-06-01T00:00:00Z" } } =
      [{ source := "unicorn.contracts"
         detailType := "ContractStatusChanged"
         property_id := "p1"
         contract_id := some "c1"
         contract_status := some "APPROVED"
         contract_last_modified_on := some "2024-01-01T00:00:00Z" }] := by
  exact C4_pipe_mapping
    { eventName := "MODIFY"
      oldImage := some draftItemP1
      newImage := some { property_id := "p1"
                         contract_id := some "c1"
                         contract_status := some "APPROVED"
                         contract_last_modified_on := some "2024-01-01T00:00:00Z"
                         modified_date := some "2025-06-01T00:00:00Z" } }
    { property_id := "p1"
      contract_id := some "c1"
      contract_status := some "APPROVED"
      contract_last_modified_on := some "2024-01-01T00:00:00Z"
      modified_date := some "2025-06-01T00:00:00Z" }
    rfl (by decide)

/-- Claim C5: a stream record is admitted by the filter, that is, produces a
nonempty list of canonical events, exactly when its event name is INSERT or
MODIFY and its after-image carries a contract_status in the monitored set of
DRAFT and APPROVED; a record whose after-image status is outside the monitored
set produces zero canonical events. -/
theorem C5_pipe_filter (r : ChangeRecord) :
    (pipeOutput r ≠ [] ↔
      ((r.eventName = "INSERT" ∨ r.eventName = "MODIFY") ∧
        ∃ img, r.newImage = some img ∧
          (img.contract_status = some "DRAFT" ∨
            img.contract_status = some "APPROVED"))) ∧
    (∀ img, r.newImage = some img →
      img.contract_status ≠ some "DRAFT" →
      img.contract_status ≠ some "APPROVED" →
      pipeOutput r = []) := by
  obtain ⟨en, old, newImg⟩ := r
  cases newImg with
  | none =>
      refine ⟨by simp [pipeOutput, filterMatch], ?_⟩
      intro img himg
      cases himg
  | some img =>
      refine ⟨?_, ?_⟩
      · simp [pipeOutput, filterMatch]
        tauto
      · intro img2 himg2 hd ha
        injection himg2 with h
        subst h
        simp [pipeOutput, filterMatch, hd, ha]

/-- Witness for C5: a MODIFY record whose after-image status is SOLD, outside the
monitored set, produces zero canonical events. -/
theorem C5_pipe_filter_witness :
    pipeOutput
        { eventName := "MODIFY"
          oldImage := none
          newImage := some { property_id := "p3"
                             contract_id := some "c3"
                             contract_status := some "SOLD"
                             contract_last_modified_on := none
                             modified_date := none } } = [] := by
  exact (C5_pipe_filter _).2 _ rfl (by decide) (by decide)

/-- Claim C6: with no store fault, the exists check signals the typed not-found
outcome with statusCode 400 exactly when no record is stored for the property
or the stored record lacks a contract_id (the attribute is absent or empty);
otherwise it returns the 200 response whose body carries the stored contract
status. A store fault is answered with the distinct statusCode 500. -/
theorem C6_exists_check (s : Store) (propertyId : String) :
    (existsCheckHandler s propertyId false =
        Except.error { statusCode := 400 } ↔
      (s propertyId = none ∨
        ∃ it, s propertyId = some it ∧
          (it.contract_id = none ∨ it.contract_id = some ""))) ∧
    (∀ it, s propertyId = some it →
      it.contract_id ≠ none → it.contract_id ≠ some "" →
      existsCheckHandler s propertyId false =
        Except.ok { statusCode := 200
                    body := some { contract_id := it.contract_id
                                   property_id := it.property_id
                                   contract_status := it.contract_status } }) ∧
    existsCheckHandler s propertyId true =
      Except.ok { statusCode := 500, body := none } ∧
    (400 : Nat) ≠ 500 := by
  refine ⟨?_, ?_, rfl, by decide⟩
  · rcases hme : s propertyId with _ | it
    · constructor
      · intro _
        exact Or.inl rfl
      · intro _
        simp [existsCheckHandler, getContractStatus, hme]
    · by_cases hid : it.contract_id = none ∨ it.contract_id = some ""
      · constructor
        · intro _
          exact Or.inr ⟨it, rfl, hid⟩
        · intro _
          simp [existsCheckHandler, getContractStatus, hme, hid]
      · have hok : existsCheckHandler s propertyId false =
            Except.ok { statusCode := 200
                        body := some { contract_id := it.contract_id
                                       property_id := it.property_id
                                       contract_status := it.contract_status } } := by
          simp [existsCheckHandler, getContractStatus, hme, hid]
        constructor
        · intro h
          rw [hok] at h
          cases h
        · rintro (h | ⟨it2, hit2, hid2⟩)
          · simp at h
          · cases hit2
            exact absurd hid2 hid
  · intro it hit hn hne
    simp [existsCheckHandler, getContractStatus, hit]
    exact ⟨hn, hne⟩

/-- Witness for C6: the empty table answers not found with 400 for p9, and the
table holding the p1 DRAFT record answers 200 carrying status DRAFT. -/
theorem C6_exists_check_witness :
    existsCheckHandler emptyStore "p9" false =
      Except.error { statusCode := 400 } ∧
    existsCheckHandler storeP1Draft "p1" false =
      Except.ok { statusCode := 200
                  body := some { contract_id := some "c1"
                                 property_id := "p1"
                                 contract_status := some "DRAFT" } } := by
  constructor
  · exact (C6_exists_check emptyStore "p9").1.mpr (Or.inl rfl)
  · exact (C6_exists_check storeP1Draft "p1").2.1 draftItemP1 rfl
      (by decide) (by decide)

/-- Counterexample for C7: a parsed command whose method attribute is DELETE falls
to the default branch of the handler, which only logs: the handler completes
normally, surfacing no error to its caller, so no UnsupportedOperation signal
reaches the caller. -/
theorem C7_counterexample :
    handler "2025-06-01T00:00:00Z"
        [{ body := SQSBody.wellFormed updateCommandP1, httpMethod := "DELETE" }]
        emptyStore =
      (none, emptyStore) := by
  rfl

/-- Amended C7: for every command whose method attribute is neither POST nor
PUT, the Command Processor performs no write to the Contract Store and logs
the unsupported operation without propagating any error to its caller: the
handler continues with the remaining records on the unchanged table. -/
theorem C7_unsupported_no_write (now m : String) (c : ContractDBType)
    (rest : List SQSRecord) (s : Store)
    (hp : m ≠ "POST") (hq : m ≠ "PUT") :
    handler now ({ body := SQSBody.wellFormed c, httpMethod := m } :: rest) s =
      handler now rest s := by
  simp [handler, parseRecord, hp, hq]

/-- Witness for the amended C7: the DELETE command on the p1 table is skipped with no
write and no surfaced error. -/
theorem C7_unsupported_no_write_witness :
    handler "2025-06-01T00:00:00Z"
        [{ body := SQSBody.wellFormed updateCommandP1, httpMethod := "DELETE" }]
        storeP1Draft =
      handler "2025-06-01T00:00:00Z" [] storeP1Draft := by
  exact C7_unsupported_no_write "2025-06-01T00:00:00Z" "DELETE" updateCommandP1 []
    storeP1Draft (by decide) (by decide)

/-- Counterexample for C8: in a batch where a malformed record precedes a valid
Update for the DRAFT record p1, the parse error aborts the invocation before
the sibling is processed: the handler rethrows the parsing error and p1 is
still DRAFT, although processing the sibling would have approved it. -/
theorem C8_counterexample :
    handler "2025-06-01T00:00:00Z"
        [{ body := SQSBody.malformed, httpMethod := "PUT" },
         { body := SQSBody.wellFormed updateCommandP1, httpMethod := "PUT" }]
        storeP1Draft =
      (some HandlerError.parseError, storeP1Draft) ∧
    (storeP1Draft "p1").map Item.contract_status = some (some "DRAFT") := by
  exact ⟨rfl, rfl⟩

/-- Amended C8: a record with a malformed payload fails fast with a parsing
error that the handler rethrows at once, before any later record of the batch
is processed and without touching the table; sibling isolation holds because
the ingest event source is configured with batch size 1, so a unit of work is
a batch of its own. -/
theorem C8_malformed_fail_fast (now m : String) (rest : List SQSRecord)
    (s : Store) :
    handler now ({ body := SQSBody.malformed, httpMethod := m } :: rest) s =
      (some HandlerError.parseError, s) ∧
    ingestEventSource.batchSize = 1 := by
  exact ⟨rfl, rfl⟩

/-- Claim C9: a stream entry that keeps failing beyond the retry budget of the pipe
is routed to the dead letter path after the bounded maximumRetryAttempts + 1
attempts, while the entries before and after it in the stream are still
processed; the declared configuration has a dead letter target, automatic
bisection on partial batch failure, and batch size 1. -/
theorem C9_retry_dead_letter (pre post : List Nat) (failures : Nat)
    (hf : contractsPipeStreamParameters.maximumRetryAttempts < failures) :
    deliverStream contractsPipeStreamParameters.maximumRetryAttempts
        (pre ++ failures :: post) =
      deliverStream contractsPipeStreamParameters.maximumRetryAttempts pre ++
        (EntryOutcome.deadLettered,
          contractsPipeStreamParameters.maximumRetryAttempts + 1) ::
        deliverStream contractsPipeStreamParameters.maximumRetryAttempts post ∧
    contractsPipeStreamParameters.hasDeadLetterConfig = true ∧
    contractsPipeStreamParameters.onPartialBatchItemFailure = "AUTOMATIC_BISECT" ∧
    contractsPipeStreamParameters.batchSize = 1 := by
  refine ⟨?_, rfl, rfl, rfl⟩
  have hde : deliverEntry contractsPipeStreamParameters.maximumRetryAttempts failures =
      (EntryOutcome.deadLettered,
        contractsPipeStreamParameters.maximumRetryAttempts + 1) := by
    rw [deliverEntry, if_neg (Nat.not_le.mpr hf)]
  simp [deliverStream, hde]

/-- Witness for C9: an entry failing its first ten delivery attempts is dead
lettered after four attempts, three retries past the first try, and the
surrounding entries of the stream are still settled. -/
theorem C9_retry_dead_letter_witness :
    deliverStream contractsPipeStreamParameters.maximumRetryAttempts
        ([0] ++ 10 :: [0]) =
      deliverStream contractsPipeStreamParameters.maximumRetryAttempts [0] ++
        (EntryOutcome.deadLettered,
          contractsPipeStreamParameters.maximumRetryAttempts + 1) ::
        deliverStream contractsPipeStreamParameters.maximumRetryAttempts [0] := by
  exact (C9_retry_dead_letter [0] [0] 10 (by decide)).1

end UnicornContracts
